import Mathlib

/-!
Shallow embedding of the `TokenVisualizer` class from the tokenizer
module of the repository (src/unnamed/part_000).  JavaScript strings are modelled
as lists of UTF-16 code units (`List Nat`); JS `Map` objects are modelled
as association lists with JS insertion-order semantics (`mapSet` replaces
the value in place for an existing key, appends otherwise).
-/

/-- A JavaScript string: its sequence of UTF-16 code units. -/
abbrev JSString := List Nat

/-- Code units of an ASCII Lean string literal (used to write the seed
vocabulary the way the source writes string literals). -/
def js (s : String) : JSString := s.data.map Char.toNat

/-- JS `String.prototype.toLowerCase`, restricted to its ASCII action
(`A`..`Z` ↦ `a`..`z`).  The vocabulary of this program is pure ASCII, so
this fragment decides every lookup the tokenizer performs. -/
def jsToLowerCase (s : JSString) : JSString :=
  s.map (fun c => if 65 ≤ c ∧ c ≤ 90 then c + 32 else c)

/-- The JS regular-expression class `\s` (ECMAScript WhiteSpace and
LineTerminator code points), as used by `tokenizeWords`. -/
def isJsWhitespace (c : Nat) : Bool :=
  c = 9 || c = 10 || c = 11 || c = 12 || c = 13 || c = 32 || c = 160 ||
  c = 0x1680 || (0x2000 ≤ c && c ≤ 0x200A) || c = 0x2028 || c = 0x2029 ||
  c = 0x202F || c = 0x205F || c = 0x3000 || c = 0xFEFF

/-- The fixed punctuation character class of `tokenizeWords`:
dot, comma, the bracket characters, quote characters, dash, underscore,
arithmetic and shell symbols, angle brackets, tilde and backtick (the
class listed in the source regex), written as code units. -/
def isPunctChar (c : Nat) : Bool :=
  c = 46 || c = 44 || c = 33 || c = 63 || c = 59 || c = 58 || c = 34 ||
  c = 39 || c = 40 || c = 41 || c = 91 || c = 93 || c = 123 || c = 125 ||
  c = 45 || c = 95 || c = 43 || c = 61 || c = 42 || c = 47 || c = 92 ||
  c = 124 || c = 64 || c = 35 || c = 36 || c = 37 || c = 94 || c = 38 ||
  c = 60 || c = 62 || c = 126 || c = 96

/-- JS `String.fromCharCode` on one integer argument: ToUint16 then the code
unit, i.e. reduction modulo 2^16. -/
def fromCharCode (x : Int) : Nat := (x % 65536).toNat

/-- JS `Map.prototype.set`: replace in place when the key is present
(preserving insertion order), append otherwise. -/
def mapSet {K V : Type} [DecidableEq K] (m : List (K × V)) (k : K) (v : V) :
    List (K × V) :=
  if m.any (fun p => p.1 = k) then
    m.map (fun p => if p.1 = k then (k, v) else p)
  else m ++ [(k, v)]

/-- JS `Map.prototype.get` (as an `Option`). -/
def mapGet {K V : Type} [DecidableEq K] (m : List (K × V)) (k : K) :
    Option V :=
  (m.find? (fun p => p.1 = k)).map (fun p => p.2)

/-- JS `Map.prototype.has`. -/
def mapHas {K V : Type} [DecidableEq K] (m : List (K × V)) (k : K) : Bool :=
  m.any (fun p => p.1 = k)

/-- The `specialTokens` seed list of `initializeVocabulary`. -/
def specialTokens : List JSString :=
  (["<PAD>", "<UNK>", "<START>", "<END>", "<MASK>",
    "<CLS>", "<SEP>", "<NEWLINE>", "<TAB>", "<SPACE>"]).map js

/-- The `commonWords` seed list of `initializeVocabulary` (verbatim,
duplicates included). -/
def commonWords : List JSString :=
  (["the", "be", "to", "of", "and", "a", "in", "that", "have", "i",
    "it", "for", "not", "on", "with", "he", "as", "you", "do", "at",
    "this", "but", "his", "by", "from", "they", "we", "say", "her", "she",
    "or", "an", "will", "my", "one", "all", "would", "there", "their",
    "what", "so", "up", "out", "if", "about", "who", "get", "which", "go",
    "me", "when", "make", "can", "like", "time", "no", "just", "him", "know",
    "take", "people", "into", "year", "your", "good", "some", "could", "them",
    "see", "other", "than", "then", "now", "look", "only", "come", "its", "over",
    "think", "also", "back", "after", "use", "two", "how", "our", "work",
    "first", "well", "way", "even", "new", "want", "because", "any", "these",
    "give", "day", "most", "us", "is", "was", "are", "been", "has", "had",
    "were", "said", "each", "which", "their", "time", "will", "about", "if",
    "up", "out", "many", "then", "them", "these", "so", "some", "her", "would",
    "make", "like", "into", "him", "has", "two", "more", "very", "what", "know",
    "just", "first", "get", "over", "think", "where", "much", "go", "well",
    "were", "been", "have", "had", "has", "said", "each", "which", "she",
    "do", "how", "their", "if", "will", "up", "other", "about", "out", "many"]).map js

/-- The `punctuation` seed list of `initializeVocabulary`, as code units:
the same 32 punctuation and symbol characters as the source list, then
the literal newline, tab and space characters. -/
def punctuation : List JSString :=
  [[46], [44], [33], [63], [59], [58], [34], [39], [40], [41], [91], [93],
   [123], [125], [45], [95], [43], [61], [42], [47], [92], [124], [64],
   [35], [36], [37], [94], [38], [60], [62], [126], [96], [10], [9], [32]]

/-- The full seed sequence in the order `initializeVocabulary` inserts it:
special tokens, then case-folded common words, then punctuation. -/
def seedUnits : List JSString :=
  specialTokens ++ commonWords.map jsToLowerCase ++ punctuation

/-- The forward map built by `initializeVocabulary`: `unit.set(…)` calls in
seed order with sequential ids starting at 0. -/
def vocabulary : List (JSString × Int) :=
  (seedUnits.foldl
    (fun acc u => (mapSet acc.1 u acc.2, acc.2 + 1)) ([], 0)).1

/-- The inverse map built by `initializeVocabulary`. -/
def reverseVocabulary : List (Int × JSString) :=
  (seedUnits.foldl
    (fun acc u => (mapSet acc.1 acc.2 u, acc.2 + 1)) ([], 0)).1

/-- The field `this.asciiOffset`. -/
def asciiOffset : Int := 2000

/-- The final value of the `output` field of a trace step (a JS value that is a
number, an array of numbers, a string, or the initial `null`). -/
inductive StepOutput where
  | null : StepOutput
  | num (n : Int) : StepOutput
  | nums (ns : List Int) : StepOutput
  | str (s : JSString) : StepOutput
deriving DecidableEq, Repr

/-- One entry of `this.encodingSteps`. -/
structure EncodeStep where
  step : Nat
  input : JSString
  process : JSString
  output : StepOutput
deriving DecidableEq, Repr

/-- One entry of `this.decodingSteps`. -/
structure DecodeStep where
  step : Nat
  input : Int
  process : JSString
  output : StepOutput
deriving DecidableEq, Repr

/-- The object returned by `encodeText`.  The early return for falsy input
produces an object carrying only `tokens` and `steps`; the fields absent
from it are modelled as `none`. -/
structure EncodeResult where
  tokens : List Int
  steps : List EncodeStep
  originalText : Option JSString
  tokenCount : Option Nat
  characterCount : Option Nat
deriving DecidableEq, Repr

/-- The object returned by `decodeTokens`; `tokenCount` is absent (`none`)
on the early return for empty input. -/
structure DecodeResult where
  text : JSString
  steps : List DecodeStep
  tokenCount : Option Nat
deriving DecidableEq, Repr

/-- The object returned by `getEncodingStats`.  `compressionRatio` is the
numeric value of the JS result (`.toFixed(1)` string, or the number 0). -/
structure StatsResult where
  characterCount : Nat
  tokenCount : Nat
  compressionRatio : ℚ
  tokens : List Int
deriving DecidableEq, Repr

/-- One element of the list returned by `getVocabulary`. -/
structure VocabEntry where
  character : JSString
  token : Int
  type : JSString
deriving DecidableEq, Repr

/-- The instance state of a `TokenVisualizer` object: the two vocabulary
maps and ASCII offset set up by `initializeVocabulary`, and the two
mutable trace arrays. -/
structure TokenVisualizer where
  vocabulary : List (JSString × Int)
  reverseVocabulary : List (Int × JSString)
  asciiOffset : Int
  encodingSteps : List EncodeStep
  decodingSteps : List DecodeStep
deriving DecidableEq, Repr

/-- The constructor: `initializeVocabulary` plus empty trace arrays. -/
def tokenizer : TokenVisualizer :=
  { vocabulary := vocabulary, reverseVocabulary := reverseVocabulary,
    asciiOffset := asciiOffset, encodingSteps := [], decodingSteps := [] }

/-- Decimal rendering of a JS number holding an integer (used by template
literals such as the trace `process` strings). -/
def jsOfInt (n : Int) : JSString := js (toString n)

/-- The loop body of `tokenizeWords` for one character `c`, acting on the
pair (units so far, pending run): whitespace flushes the pending run and
emits `c` as a unit only when it is not the plain space; punctuation
flushes and emits `c`; anything else extends the pending run. -/
def tokenizeStep (acc : List JSString × JSString) (c : Nat) :
    List JSString × JSString :=
  if isJsWhitespace c then
    (acc.1 ++ (if acc.2.isEmpty then [] else [acc.2]) ++
      (if c ≠ 32 then [[c]] else []), [])
  else if isPunctChar c then
    (acc.1 ++ (if acc.2.isEmpty then [] else [acc.2]) ++ [[c]], [])
  else
    (acc.1, acc.2 ++ [c])

/-- The method `tokenizeWords`: scan the text, accumulating a pending run of regular
characters, flushing it at whitespace/punctuation; plain spaces are
swallowed, other whitespace and punctuation become their own units; the
pending run is flushed at end of input. -/
def tokenizeWords (text : JSString) : List JSString :=
  let r := text.foldl tokenizeStep ([], [])
  r.1 ++ (if r.2.isEmpty then [] else [r.2])

/-- The method `encodeToAscii`: one id per code unit, shifted by the ASCII offset. -/
def TokenVisualizer.encodeToAscii (self : TokenVisualizer)
    (word : JSString) : List Int :=
  word.map (fun c => Int.ofNat c + self.asciiOffset)

/-- The body of the `forEach` loop of `encodeText` at position `index` on
unit `word`: the ids appended to `tokens` and the recorded step. -/
def TokenVisualizer.encodeOne (self : TokenVisualizer) (index : Nat)
    (word : JSString) : List Int × EncodeStep :=
  if mapHas self.vocabulary (jsToLowerCase word) then
    let tokenId := (mapGet self.vocabulary (jsToLowerCase word)).getD 0
    ([tokenId],
     { step := index + 1, input := word,
       process := js "Found \"" ++ word ++ js "\" in vocabulary",
       output := .num tokenId })
  else
    let asciiTokens := self.encodeToAscii word
    (asciiTokens,
     { step := index + 1, input := word,
       process := js "\"" ++ word ++
         js "\" not in vocabulary, using ASCII encoding",
       output := .nums asciiTokens })

/-- The method `encodeText`, with the instance-state update (`this.encodingSteps`)
made explicit: returns the result object and the updated instance. -/
def TokenVisualizer.encodeTextM (self : TokenVisualizer) (text : JSString) :
    EncodeResult × TokenVisualizer :=
  if text.isEmpty then
    ({ tokens := [], steps := [], originalText := none, tokenCount := none,
       characterCount := none }, self)
  else
    let words := tokenizeWords text
    let acc := words.enum.foldl
      (fun acc p =>
        let r := self.encodeOne p.1 p.2
        (acc.1 ++ r.1, acc.2 ++ [r.2]))
      ([], [])
    ({ tokens := acc.1, steps := acc.2, originalText := some text,
       tokenCount := some acc.1.length,
       characterCount := some text.length },
     { self with encodingSteps := acc.2 })

/-- The body of the `forEach` loop of `decodeTokens` at position `index`
on id `token`: the text appended and the recorded step. -/
def TokenVisualizer.decodeOne (self : TokenVisualizer) (index : Nat)
    (token : Int) : JSString × DecodeStep :=
  if mapHas self.reverseVocabulary token then
    let text := (mapGet self.reverseVocabulary token).getD []
    (text,
     { step := index + 1, input := token,
       process := js "Token " ++ jsOfInt token ++ js " found in vocabulary",
       output := .str text })
  else if self.asciiOffset ≤ token then
    let asciiChar := fromCharCode (token - self.asciiOffset)
    ([asciiChar],
     { step := index + 1, input := token,
       process := js "Token " ++ jsOfInt token ++ js " decoded from ASCII",
       output := .str [asciiChar] })
  else
    (js "<UNK>",
     { step := index + 1, input := token,
       process := js "Token " ++ jsOfInt token ++
         js " not found, using <UNK>",
       output := .str (js "<UNK>") })

/-- The method `decodeTokens`, with the `this.decodingSteps` update made
explicit. -/
def TokenVisualizer.decodeTokensM (self : TokenVisualizer)
    (tokens : List Int) : DecodeResult × TokenVisualizer :=
  if tokens.isEmpty then
    ({ text := [], steps := [], tokenCount := none }, self)
  else
    let acc := tokens.enum.foldl
      (fun acc p =>
        let r := self.decodeOne p.1 p.2
        (acc.1 ++ r.1, acc.2 ++ [r.2]))
      ([], [])
    ({ text := acc.1, steps := acc.2, tokenCount := some tokens.length },
     { self with decodingSteps := acc.2 })

/-- JS `String.prototype.includes` (substring containment). -/
def jsIncludes (s sub : JSString) : Bool :=
  (List.range (s.length + 1)).any
    (fun i => decide ((s.drop i).take sub.length = sub))

/-- Insertion of one entry into a list ascending by `token`; `sortByToken`
below models `Array.prototype.sort` with comparator `a.token - b.token`
(the tokens produced by `getVocabulary` are pairwise distinct, so the
ascending order is unique and stability is irrelevant). -/
def insertByToken (e : VocabEntry) : List VocabEntry → List VocabEntry
  | [] => [e]
  | f :: rest =>
      if e.token ≤ f.token then e :: f :: rest else f :: insertByToken e rest

/-- Sort a vocabulary listing ascending by `token`. -/
def sortByToken (l : List VocabEntry) : List VocabEntry :=
  l.foldr insertByToken []

/-- The method `getVocabulary`: filtered map entries, optional synthesized printable
ASCII range (codes 32–126), sorted ascending by id. -/
def TokenVisualizer.getVocabulary (self : TokenVisualizer)
    (searchTerm : JSString) (includeAscii : Bool) : List VocabEntry :=
  let vocabEntries := self.vocabulary.foldl
    (fun acc p =>
      if searchTerm.isEmpty ||
          jsIncludes (jsToLowerCase p.1) (jsToLowerCase searchTerm) then
        acc ++ [{ character := p.1, token := p.2, type := js "vocabulary" }]
      else acc)
    []
  let asciiEntries :=
    if includeAscii then
      (List.range 95).foldl
        (fun acc j =>
          let i := 32 + j
          let ch : JSString := [i]
          let tokenId : Int := (i : Int) + self.asciiOffset
          if searchTerm.isEmpty || jsIncludes ch searchTerm ||
              jsIncludes (jsOfInt tokenId) searchTerm then
            acc ++ [{ character := ch, token := tokenId, type := js "ascii" }]
          else acc)
        []
    else []
  sortByToken (vocabEntries ++ asciiEntries)

/-- EXACT-RATIONAL IDEALIZATION of JS `(x).toFixed(1)` read back as a
number: the multiple of 1/10 nearest to `x`, ties toward the larger
value.  The source applies `toFixed(1)` to a binary64 double, whose
representation error can flip a tie (exact 3/2000*100 = 0.15 rounds up
to 0.2 here, while the double 0.1499999999999999944… yields 0.1 there),
so this function does NOT reproduce the numeric output of the program at
such inputs; it is used below only to give the statistics record a
deterministic ratio field (claim C9), never to assert the numeric value
the program prints. -/
def toFixed1 (x : ℚ) : ℚ := (⌊x * 10 + 1 / 2⌋ : ℚ) / 10

/-- The method `getEncodingStats`: re-runs `encodeText` (hence updates
the encoding trace) and computes the compression ratio.  The ratio field
carries the `toFixed1` idealization of the binary64 computation of the
source (see the caveat on `toFixed1`): faithful in structure and
determinism, not in the last decimal at rounding ties. -/
def TokenVisualizer.getEncodingStatsM (self : TokenVisualizer)
    (text : JSString) : StatsResult × TokenVisualizer :=
  let r := self.encodeTextM text
  let compressionRatio : ℚ :=
    if 0 < text.length then
      toFixed1 ((((text.length : ℚ) - (r.1.tokens.length : ℚ)) /
        (text.length : ℚ)) * 100)
    else 0
  ({ characterCount := text.length, tokenCount := r.1.tokens.length,
     compressionRatio := compressionRatio, tokens := r.1.tokens }, r.2)

/-- The call `encodeText` on the global `tokenizer` instance (the result
object). -/
def encodeText (text : JSString) : EncodeResult :=
  (tokenizer.encodeTextM text).1

/-- The call `decodeTokens` on the global `tokenizer` instance (the
result object). -/
def decodeTokens (tokens : List Int) : DecodeResult :=
  (tokenizer.decodeTokensM tokens).1

/-- The call `getEncodingStats` on the global `tokenizer` instance. -/
def getEncodingStats (text : JSString) : StatsResult :=
  (tokenizer.getEncodingStatsM text).1

/-- One public call on a `TokenVisualizer` instance. -/
inductive Op where
  | enc (text : JSString) : Op
  | dec (tokens : List Int) : Op
  | stats (text : JSString) : Op
  | vocabList (searchTerm : JSString) (includeAscii : Bool) : Op

/-- The instance state after performing one call (`getVocabulary` reads
the instance without writing it). -/
def runOp (self : TokenVisualizer) : Op → TokenVisualizer
  | .enc t => (self.encodeTextM t).2
  | .dec ts => (self.decodeTokensM ts).2
  | .stats t => (self.getEncodingStatsM t).2
  | .vocabList _ _ => self

/-- The forward map, written out (proved equal to `vocabulary` below;
used to keep kernel evaluation of the concrete claims linear). -/
def vocabLit : List (JSString × Int) :=
  [([60, 80, 65, 68, 62], 0),
   ([60, 85, 78, 75, 62], 1),
   ([60, 83, 84, 65, 82, 84, 62], 2),
   ([60, 69, 78, 68, 62], 3),
   ([60, 77, 65, 83, 75, 62], 4),
   ([60, 67, 76, 83, 62], 5),
   ([60, 83, 69, 80, 62], 6),
   ([60, 78, 69, 87, 76, 73, 78, 69, 62], 7),
   ([60, 84, 65, 66, 62], 8),
   ([60, 83, 80, 65, 67, 69, 62], 9),
   ([116, 104, 101], 10),
   ([98, 101], 11),
   ([116, 111], 12),
   ([111, 102], 13),
   ([97, 110, 100], 14),
   ([97], 15),
   ([105, 110], 16),
   ([116, 104, 97, 116], 17),
   ([104, 97, 118, 101], 156),
   ([105], 19),
   ([105, 116], 20),
   ([102, 111, 114], 21),
   ([110, 111, 116], 22),
   ([111, 110], 23),
   ([119, 105, 116, 104], 24),
   ([104, 101], 25),
   ([97, 115], 26),
   ([121, 111, 117], 27),
   ([100, 111], 163),
   ([97, 116], 29),
   ([116, 104, 105, 115], 30),
   ([98, 117, 116], 31),
   ([104, 105, 115], 32),
   ([98, 121], 33),
   ([102, 114, 111, 109], 34),
   ([116, 104, 101, 121], 35),
   ([119, 101], 36),
   ([115, 97, 121], 37),
   ([104, 101, 114], 133),
   ([115, 104, 101], 162),
   ([111, 114], 40),
   ([97, 110], 41),
   ([119, 105, 108, 108], 167),
   ([109, 121], 43),
   ([111, 110, 101], 44),
   ([97, 108, 108], 45),
   ([119, 111, 117, 108, 100], 134),
   ([116, 104, 101, 114, 101], 47),
   ([116, 104, 101, 105, 114], 165),
   ([119, 104, 97, 116], 143),
   ([115, 111], 131),
   ([117, 112], 168),
   ([111, 117, 116], 171),
   ([105, 102], 166),
   ([97, 98, 111, 117, 116], 170),
   ([119, 104, 111], 55),
   ([103, 101, 116], 147),
   ([119, 104, 105, 99, 104], 161),
   ([103, 111], 152),
   ([109, 101], 59),
   ([119, 104, 101, 110], 60),
   ([109, 97, 107, 101], 135),
   ([99, 97, 110], 62),
   ([108, 105, 107, 101], 136),
   ([116, 105, 109, 101], 121),
   ([110, 111], 65),
   ([106, 117, 115, 116], 145),
   ([104, 105, 109], 138),
   ([107, 110, 111, 119], 144),
   ([116, 97, 107, 101], 69),
   ([112, 101, 111, 112, 108, 101], 70),
   ([105, 110, 116, 111], 137),
   ([121, 101, 97, 114], 72),
   ([121, 111, 117, 114], 73),
   ([103, 111, 111, 100], 74),
   ([115, 111, 109, 101], 132),
   ([99, 111, 117, 108, 100], 76),
   ([116, 104, 101, 109], 129),
   ([115, 101, 101], 78),
   ([111, 116, 104, 101, 114], 169),
   ([116, 104, 97, 110], 80),
   ([116, 104, 101, 110], 128),
   ([110, 111, 119], 82),
   ([108, 111, 111, 107], 83),
   ([111, 110, 108, 121], 84),
   ([99, 111, 109, 101], 85),
   ([105, 116, 115], 86),
   ([111, 118, 101, 114], 148),
   ([116, 104, 105, 110, 107], 149),
   ([97, 108, 115, 111], 89),
   ([98, 97, 99, 107], 90),
   ([97, 102, 116, 101, 114], 91),
   ([117, 115, 101], 92),
   ([116, 119, 111], 140),
   ([104, 111, 119], 164),
   ([111, 117, 114], 95),
   ([119, 111, 114, 107], 96),
   ([102, 105, 114, 115, 116], 146),
   ([119, 101, 108, 108], 153),
   ([119, 97, 121], 99),
   ([101, 118, 101, 110], 100),
   ([110, 101, 119], 101),
   ([119, 97, 110, 116], 102),
   ([98, 101, 99, 97, 117, 115, 101], 103),
   ([97, 110, 121], 104),
   ([116, 104, 101, 115, 101], 130),
   ([103, 105, 118, 101], 106),
   ([100, 97, 121], 107),
   ([109, 111, 115, 116], 108),
   ([117, 115], 109),
   ([105, 115], 110),
   ([119, 97, 115], 111),
   ([97, 114, 101], 112),
   ([98, 101, 101, 110], 155),
   ([104, 97, 115], 158),
   ([104, 97, 100], 157),
   ([119, 101, 114, 101], 154),
   ([115, 97, 105, 100], 159),
   ([101, 97, 99, 104], 160),
   ([109, 97, 110, 121], 172),
   ([109, 111, 114, 101], 141),
   ([118, 101, 114, 121], 142),
   ([119, 104, 101, 114, 101], 150),
   ([109, 117, 99, 104], 151),
   ([46], 173),
   ([44], 174),
   ([33], 175),
   ([63], 176),
   ([59], 177),
   ([58], 178),
   ([34], 179),
   ([39], 180),
   ([40], 181),
   ([41], 182),
   ([91], 183),
   ([93], 184),
   ([123], 185),
   ([125], 186),
   ([45], 187),
   ([95], 188),
   ([43], 189),
   ([61], 190),
   ([42], 191),
   ([47], 192),
   ([92], 193),
   ([124], 194),
   ([64], 195),
   ([35], 196),
   ([36], 197),
   ([37], 198),
   ([94], 199),
   ([38], 200),
   ([60], 201),
   ([62], 202),
   ([126], 203),
   ([96], 204),
   ([10], 205),
   ([9], 206),
   ([32], 207)]

/-- The inverse map, written out. -/
def revLit : List (Int × JSString) :=
  [(0, [60, 80, 65, 68, 62]),
   (1, [60, 85, 78, 75, 62]),
   (2, [60, 83, 84, 65, 82, 84, 62]),
   (3, [60, 69, 78, 68, 62]),
   (4, [60, 77, 65, 83, 75, 62]),
   (5, [60, 67, 76, 83, 62]),
   (6, [60, 83, 69, 80, 62]),
   (7, [60, 78, 69, 87, 76, 73, 78, 69, 62]),
   (8, [60, 84, 65, 66, 62]),
   (9, [60, 83, 80, 65, 67, 69, 62]),
   (10, [116, 104, 101]),
   (11, [98, 101]),
   (12, [116, 111]),
   (13, [111, 102]),
   (14, [97, 110, 100]),
   (15, [97]),
   (16, [105, 110]),
   (17, [116, 104, 97, 116]),
   (18, [104, 97, 118, 101]),
   (19, [105]),
   (20, [105, 116]),
   (21, [102, 111, 114]),
   (22, [110, 111, 116]),
   (23, [111, 110]),
   (24, [119, 105, 116, 104]),
   (25, [104, 101]),
   (26, [97, 115]),
   (27, [121, 111, 117]),
   (28, [100, 111]),
   (29, [97, 116]),
   (30, [116, 104, 105, 115]),
   (31, [98, 117, 116]),
   (32, [104, 105, 115]),
   (33, [98, 121]),
   (34, [102, 114, 111, 109]),
   (35, [116, 104, 101, 121]),
   (36, [119, 101]),
   (37, [115, 97, 121]),
   (38, [104, 101, 114]),
   (39, [115, 104, 101]),
   (40, [111, 114]),
   (41, [97, 110]),
   (42, [119, 105, 108, 108]),
   (43, [109, 121]),
   (44, [111, 110, 101]),
   (45, [97, 108, 108]),
   (46, [119, 111, 117, 108, 100]),
   (47, [116, 104, 101, 114, 101]),
   (48, [116, 104, 101, 105, 114]),
   (49, [119, 104, 97, 116]),
   (50, [115, 111]),
   (51, [117, 112]),
   (52, [111, 117, 116]),
   (53, [105, 102]),
   (54, [97, 98, 111, 117, 116]),
   (55, [119, 104, 111]),
   (56, [103, 101, 116]),
   (57, [119, 104, 105, 99, 104]),
   (58, [103, 111]),
   (59, [109, 101]),
   (60, [119, 104, 101, 110]),
   (61, [109, 97, 107, 101]),
   (62, [99, 97, 110]),
   (63, [108, 105, 107, 101]),
   (64, [116, 105, 109, 101]),
   (65, [110, 111]),
   (66, [106, 117, 115, 116]),
   (67, [104, 105, 109]),
   (68, [107, 110, 111, 119]),
   (69, [116, 97, 107, 101]),
   (70, [112, 101, 111, 112, 108, 101]),
   (71, [105, 110, 116, 111]),
   (72, [121, 101, 97, 114]),
   (73, [121, 111, 117, 114]),
   (74, [103, 111, 111, 100]),
   (75, [115, 111, 109, 101]),
   (76, [99, 111, 117, 108, 100]),
   (77, [116, 104, 101, 109]),
   (78, [115, 101, 101]),
   (79, [111, 116, 104, 101, 114]),
   (80, [116, 104, 97, 110]),
   (81, [116, 104, 101, 110]),
   (82, [110, 111, 119]),
   (83, [108, 111, 111, 107]),
   (84, [111, 110, 108, 121]),
   (85, [99, 111, 109, 101]),
   (86, [105, 116, 115]),
   (87, [111, 118, 101, 114]),
   (88, [116, 104, 105, 110, 107]),
   (89, [97, 108, 115, 111]),
   (90, [98, 97, 99, 107]),
   (91, [97, 102, 116, 101, 114]),
   (92, [117, 115, 101]),
   (93, [116, 119, 111]),
   (94, [104, 111, 119]),
   (95, [111, 117, 114]),
   (96, [119, 111, 114, 107]),
   (97, [102, 105, 114, 115, 116]),
   (98, [119, 101, 108, 108]),
   (99, [119, 97, 121]),
   (100, [101, 118, 101, 110]),
   (101, [110, 101, 119]),
   (102, [119, 97, 110, 116]),
   (103, [98, 101, 99, 97, 117, 115, 101]),
   (104, [97, 110, 121]),
   (105, [116, 104, 101, 115, 101]),
   (106, [103, 105, 118, 101]),
   (107, [100, 97, 121]),
   (108, [109, 111, 115, 116]),
   (109, [117, 115]),
   (110, [105, 115]),
   (111, [119, 97, 115]),
   (112, [97, 114, 101]),
   (113, [98, 101, 101, 110]),
   (114, [104, 97, 115]),
   (115, [104, 97, 100]),
   (116, [119, 101, 114, 101]),
   (117, [115, 97, 105, 100]),
   (118, [101, 97, 99, 104]),
   (119, [119, 104, 105, 99, 104]),
   (120, [116, 104, 101, 105, 114]),
   (121, [116, 105, 109, 101]),
   (122, [119, 105, 108, 108]),
   (123, [97, 98, 111, 117, 116]),
   (124, [105, 102]),
   (125, [117, 112]),
   (126, [111, 117, 116]),
   (127, [109, 97, 110, 121]),
   (128, [116, 104, 101, 110]),
   (129, [116, 104, 101, 109]),
   (130, [116, 104, 101, 115, 101]),
   (131, [115, 111]),
   (132, [115, 111, 109, 101]),
   (133, [104, 101, 114]),
   (134, [119, 111, 117, 108, 100]),
   (135, [109, 97, 107, 101]),
   (136, [108, 105, 107, 101]),
   (137, [105, 110, 116, 111]),
   (138, [104, 105, 109]),
   (139, [104, 97, 115]),
   (140, [116, 119, 111]),
   (141, [109, 111, 114, 101]),
   (142, [118, 101, 114, 121]),
   (143, [119, 104, 97, 116]),
   (144, [107, 110, 111, 119]),
   (145, [106, 117, 115, 116]),
   (146, [102, 105, 114, 115, 116]),
   (147, [103, 101, 116]),
   (148, [111, 118, 101, 114]),
   (149, [116, 104, 105, 110, 107]),
   (150, [119, 104, 101, 114, 101]),
   (151, [109, 117, 99, 104]),
   (152, [103, 111]),
   (153, [119, 101, 108, 108]),
   (154, [119, 101, 114, 101]),
   (155, [98, 101, 101, 110]),
   (156, [104, 97, 118, 101]),
   (157, [104, 97, 100]),
   (158, [104, 97, 115]),
   (159, [115, 97, 105, 100]),
   (160, [101, 97, 99, 104]),
   (161, [119, 104, 105, 99, 104]),
   (162, [115, 104, 101]),
   (163, [100, 111]),
   (164, [104, 111, 119]),
   (165, [116, 104, 101, 105, 114]),
   (166, [105, 102]),
   (167, [119, 105, 108, 108]),
   (168, [117, 112]),
   (169, [111, 116, 104, 101, 114]),
   (170, [97, 98, 111, 117, 116]),
   (171, [111, 117, 116]),
   (172, [109, 97, 110, 121]),
   (173, [46]),
   (174, [44]),
   (175, [33]),
   (176, [63]),
   (177, [59]),
   (178, [58]),
   (179, [34]),
   (180, [39]),
   (181, [40]),
   (182, [41]),
   (183, [91]),
   (184, [93]),
   (185, [123]),
   (186, [125]),
   (187, [45]),
   (188, [95]),
   (189, [43]),
   (190, [61]),
   (191, [42]),
   (192, [47]),
   (193, [92]),
   (194, [124]),
   (195, [64]),
   (196, [35]),
   (197, [36]),
   (198, [37]),
   (199, [94]),
   (200, [38]),
   (201, [60]),
   (202, [62]),
   (203, [126]),
   (204, [96]),
   (205, [10]),
   (206, [9]),
   (207, [32])]

/-- The seed sequence, written out. -/
def seedLit : List JSString :=
  [[60, 80, 65, 68, 62],
   [60, 85, 78, 75, 62],
   [60, 83, 84, 65, 82, 84, 62],
   [60, 69, 78, 68, 62],
   [60, 77, 65, 83, 75, 62],
   [60, 67, 76, 83, 62],
   [60, 83, 69, 80, 62],
   [60, 78, 69, 87, 76, 73, 78, 69, 62],
   [60, 84, 65, 66, 62],
   [60, 83, 80, 65, 67, 69, 62],
   [116, 104, 101],
   [98, 101],
   [116, 111],
   [111, 102],
   [97, 110, 100],
   [97],
   [105, 110],
   [116, 104, 97, 116],
   [104, 97, 118, 101],
   [105],
   [105, 116],
   [102, 111, 114],
   [110, 111, 116],
   [111, 110],
   [119, 105, 116, 104],
   [104, 101],
   [97, 115],
   [121, 111, 117],
   [100, 111],
   [97, 116],
   [116, 104, 105, 115],
   [98, 117, 116],
   [104, 105, 115],
   [98, 121],
   [102, 114, 111, 109],
   [116, 104, 101, 121],
   [119, 101],
   [115, 97, 121],
   [104, 101, 114],
   [115, 104, 101],
   [111, 114],
   [97, 110],
   [119, 105, 108, 108],
   [109, 121],
   [111, 110, 101],
   [97, 108, 108],
   [119, 111, 117, 108, 100],
   [116, 104, 101, 114, 101],
   [116, 104, 101, 105, 114],
   [119, 104, 97, 116],
   [115, 111],
   [117, 112],
   [111, 117, 116],
   [105, 102],
   [97, 98, 111, 117, 116],
   [119, 104, 111],
   [103, 101, 116],
   [119, 104, 105, 99, 104],
   [103, 111],
   [109, 101],
   [119, 104, 101, 110],
   [109, 97, 107, 101],
   [99, 97, 110],
   [108, 105, 107, 101],
   [116, 105, 109, 101],
   [110, 111],
   [106, 117, 115, 116],
   [104, 105, 109],
   [107, 110, 111, 119],
   [116, 97, 107, 101],
   [112, 101, 111, 112, 108, 101],
   [105, 110, 116, 111],
   [121, 101, 97, 114],
   [121, 111, 117, 114],
   [103, 111, 111, 100],
   [115, 111, 109, 101],
   [99, 111, 117, 108, 100],
   [116, 104, 101, 109],
   [115, 101, 101],
   [111, 116, 104, 101, 114],
   [116, 104, 97, 110],
   [116, 104, 101, 110],
   [110, 111, 119],
   [108, 111, 111, 107],
   [111, 110, 108, 121],
   [99, 111, 109, 101],
   [105, 116, 115],
   [111, 118, 101, 114],
   [116, 104, 105, 110, 107],
   [97, 108, 115, 111],
   [98, 97, 99, 107],
   [97, 102, 116, 101, 114],
   [117, 115, 101],
   [116, 119, 111],
   [104, 111, 119],
   [111, 117, 114],
   [119, 111, 114, 107],
   [102, 105, 114, 115, 116],
   [119, 101, 108, 108],
   [119, 97, 121],
   [101, 118, 101, 110],
   [110, 101, 119],
   [119, 97, 110, 116],
   [98, 101, 99, 97, 117, 115, 101],
   [97, 110, 121],
   [116, 104, 101, 115, 101],
   [103, 105, 118, 101],
   [100, 97, 121],
   [109, 111, 115, 116],
   [117, 115],
   [105, 115],
   [119, 97, 115],
   [97, 114, 101],
   [98, 101, 101, 110],
   [104, 97, 115],
   [104, 97, 100],
   [119, 101, 114, 101],
   [115, 97, 105, 100],
   [101, 97, 99, 104],
   [119, 104, 105, 99, 104],
   [116, 104, 101, 105, 114],
   [116, 105, 109, 101],
   [119, 105, 108, 108],
   [97, 98, 111, 117, 116],
   [105, 102],
   [117, 112],
   [111, 117, 116],
   [109, 97, 110, 121],
   [116, 104, 101, 110],
   [116, 104, 101, 109],
   [116, 104, 101, 115, 101],
   [115, 111],
   [115, 111, 109, 101],
   [104, 101, 114],
   [119, 111, 117, 108, 100],
   [109, 97, 107, 101],
   [108, 105, 107, 101],
   [105, 110, 116, 111],
   [104, 105, 109],
   [104, 97, 115],
   [116, 119, 111],
   [109, 111, 114, 101],
   [118, 101, 114, 121],
   [119, 104, 97, 116],
   [107, 110, 111, 119],
   [106, 117, 115, 116],
   [102, 105, 114, 115, 116],
   [103, 101, 116],
   [111, 118, 101, 114],
   [116, 104, 105, 110, 107],
   [119, 104, 101, 114, 101],
   [109, 117, 99, 104],
   [103, 111],
   [119, 101, 108, 108],
   [119, 101, 114, 101],
   [98, 101, 101, 110],
   [104, 97, 118, 101],
   [104, 97, 100],
   [104, 97, 115],
   [115, 97, 105, 100],
   [101, 97, 99, 104],
   [119, 104, 105, 99, 104],
   [115, 104, 101],
   [100, 111],
   [104, 111, 119],
   [116, 104, 101, 105, 114],
   [105, 102],
   [119, 105, 108, 108],
   [117, 112],
   [111, 116, 104, 101, 114],
   [97, 98, 111, 117, 116],
   [111, 117, 116],
   [109, 97, 110, 121],
   [46],
   [44],
   [33],
   [63],
   [59],
   [58],
   [34],
   [39],
   [40],
   [41],
   [91],
   [93],
   [123],
   [125],
   [45],
   [95],
   [43],
   [61],
   [42],
   [47],
   [92],
   [124],
   [64],
   [35],
   [36],
   [37],
   [94],
   [38],
   [60],
   [62],
   [126],
   [96],
   [10],
   [9],
   [32]]

/-- A "regular" character: neither whitespace nor in the punctuation
class (the characters that accumulate into a pending run). -/
def isRegularChar (c : Nat) : Bool := !isJsWhitespace c && !isPunctChar c

/-- The spec-side description of unit splitting (for claim C7): scan left
to right; a maximal run of regular characters is a whole unit; each
punctuation character and each non-space whitespace character is its own
single-character unit; the plain space character produces no unit.
Compared with the `tokenizeWords` of the source below. -/
def splitUnitsSpec : JSString → List JSString
  | [] => []
  | c :: rest =>
    if h1 : isJsWhitespace c then
      (if c = 32 then [] else [[c]]) ++ splitUnitsSpec rest
    else if h2 : isPunctChar c then
      [c] :: splitUnitsSpec rest
    else
      ((c :: rest).takeWhile isRegularChar)
        :: splitUnitsSpec ((c :: rest).dropWhile isRegularChar)
termination_by l => l.length
decreasing_by
  · simp
  · simp
  · have hreg : isRegularChar c = true := by
      simp [isRegularChar, h1, h2]
    rw [List.dropWhile_cons_of_pos hreg]
    have hlen : ∀ l : JSString, (l.dropWhile isRegularChar).length ≤ l.length := by
      intro l
      induction l with
      | nil => simp
      | cons a as ih =>
          by_cases hp : isRegularChar a
          · rw [List.dropWhile_cons_of_pos hp]
            exact Nat.le_trans ih (Nat.le_succ _)
          · rw [List.dropWhile_cons_of_neg hp]
    exact Nat.lt_succ_of_le (hlen rest)

/-- Proof-side reformulation of the `tokenizeWords` loop: recursion on
the remaining text with the pending run as accumulator. -/
def tokGo : JSString → JSString → List JSString
  | [], cur => if cur.isEmpty then [] else [cur]
  | c :: rest, cur =>
    if isJsWhitespace c then
      (if cur.isEmpty then [] else [cur])
        ++ (if c ≠ 32 then [[c]] else []) ++ tokGo rest []
    else if isPunctChar c then
      (if cur.isEmpty then [] else [cur]) ++ [[c]] ++ tokGo rest []
    else
      tokGo rest (cur ++ [c])

set_option maxRecDepth 8000
set_option maxHeartbeats 2000000

/-! ## Structural lemmas about the encode/decode loops -/

theorem encodeFold_eq (self : TokenVisualizer) (l : List (Nat × JSString)) :
    ∀ (t0 : List Int) (s0 : List EncodeStep),
    l.foldl (fun acc p =>
        let r := self.encodeOne p.1 p.2
        (acc.1 ++ r.1, acc.2 ++ [r.2])) (t0, s0)
    = (t0 ++ (l.map (fun p => (self.encodeOne p.1 p.2).1)).flatten,
       s0 ++ l.map (fun p => (self.encodeOne p.1 p.2).2)) := by
  induction l with
  | nil => intro t0 s0; simp
  | cons p rest ih => intro t0 s0; simp [ih]

theorem decodeFold_eq (self : TokenVisualizer) (l : List (Nat × Int)) :
    ∀ (t0 : JSString) (s0 : List DecodeStep),
    l.foldl (fun acc p =>
        let r := self.decodeOne p.1 p.2
        (acc.1 ++ r.1, acc.2 ++ [r.2])) (t0, s0)
    = (t0 ++ (l.map (fun p => (self.decodeOne p.1 p.2).1)).flatten,
       s0 ++ l.map (fun p => (self.decodeOne p.1 p.2).2)) := by
  induction l with
  | nil => intro t0 s0; simp
  | cons p rest ih => intro t0 s0; simp [ih]

theorem encodeTextM_eq (self : TokenVisualizer) (text : JSString)
    (h : text ≠ []) :
    self.encodeTextM text
    = ({ tokens := ((tokenizeWords text).enum.map (fun p => (self.encodeOne p.1 p.2).1)).flatten,
         steps := (tokenizeWords text).enum.map (fun p => (self.encodeOne p.1 p.2).2),
         originalText := some text,
         tokenCount := some (((tokenizeWords text).enum.map (fun p => (self.encodeOne p.1 p.2).1)).flatten).length,
         characterCount := some text.length },
       { self with encodingSteps := (tokenizeWords text).enum.map (fun p => (self.encodeOne p.1 p.2).2) }) := by
  cases text with
  | nil => exact absurd rfl h
  | cons c rest => simp [TokenVisualizer.encodeTextM, encodeFold_eq]

theorem decodeTokensM_eq (self : TokenVisualizer) (tokens : List Int)
    (h : tokens ≠ []) :
    self.decodeTokensM tokens
    = ({ text := (tokens.enum.map (fun p => (self.decodeOne p.1 p.2).1)).flatten,
         steps := tokens.enum.map (fun p => (self.decodeOne p.1 p.2).2),
         tokenCount := some tokens.length },
       { self with decodingSteps := tokens.enum.map (fun p => (self.decodeOne p.1 p.2).2) }) := by
  cases tokens with
  | nil => exact absurd rfl h
  | cons t rest => simp [TokenVisualizer.decodeTokensM, decodeFold_eq]

theorem decodeOne_fst (self : TokenVisualizer) (i : Nat) (t : Int) :
    (self.decodeOne i t).1 = (self.decodeOne 0 t).1 := by
  unfold TokenVisualizer.decodeOne
  split
  · rfl
  · split <;> rfl

theorem encodeOne_fst (self : TokenVisualizer) (i : Nat) (w : JSString) :
    (self.encodeOne i w).1 = (self.encodeOne 0 w).1 := by
  unfold TokenVisualizer.encodeOne
  split <;> rfl

theorem enum_map_snd_fun {α β : Type} (l : List α) (g : α → β) :
    l.enum.map (fun p => g p.2) = l.map g := by
  rw [show (fun p : Nat × α => g p.2) = g ∘ Prod.snd from rfl, ← List.map_map,
    List.enum_map_snd]

theorem decode_text_flat (self : TokenVisualizer) (tokens : List Int) :
    (tokens.enum.map (fun p => (self.decodeOne p.1 p.2).1)).flatten
    = (tokens.map (fun t => (self.decodeOne 0 t).1)).flatten := by
  rw [show (fun p : Nat × Int => (self.decodeOne p.1 p.2).1)
      = (fun p : Nat × Int => (self.decodeOne 0 p.2).1) from
    funext fun p => decodeOne_fst self p.1 p.2]
  exact congrArg List.flatten
    (enum_map_snd_fun tokens (fun t => (self.decodeOne 0 t).1))

theorem encode_tokens_flat (self : TokenVisualizer) (words : List JSString) :
    (words.enum.map (fun p => (self.encodeOne p.1 p.2).1)).flatten
    = (words.map (fun w => (self.encodeOne 0 w).1)).flatten := by
  rw [show (fun p : Nat × JSString => (self.encodeOne p.1 p.2).1)
      = (fun p : Nat × JSString => (self.encodeOne 0 p.2).1) from
    funext fun p => encodeOne_fst self p.1 p.2]
  exact congrArg List.flatten
    (enum_map_snd_fun words (fun w => (self.encodeOne 0 w).1))

theorem mapHas_reverseVocabulary_eq_false (t : Int) (h : (208 : Int) ≤ t) :
    mapHas reverseVocabulary t = false := by
  have hall : reverseVocabulary.all (fun p => decide (p.1 < 208)) = true := by
    decide
  rw [mapHas, List.any_eq_false]
  intro p hp
  have hb := List.all_eq_true.mp hall p hp
  simp only [decide_eq_true_eq] at hb ⊢
  omega

theorem vocabulary_eq : vocabulary = vocabLit := by decide

theorem reverseVocabulary_eq : reverseVocabulary = revLit := by decide

theorem seedUnits_eq : seedUnits = seedLit := by decide

theorem decode_single_text (t : Int) :
    (decodeTokens [t]).text
      = (if mapHas revLit t then (mapGet revLit t).getD []
         else if (2000 : Int) ≤ t then [fromCharCode (t - 2000)]
         else js "<UNK>") := by
  unfold decodeTokens
  rw [decodeTokensM_eq tokenizer [t] (by simp)]
  show ([t].enum.map (fun p => (tokenizer.decodeOne p.1 p.2).1)).flatten = _
  simp only [List.enum_cons, List.enumFrom_nil, List.map_cons, List.map_nil,
    List.flatten_cons, List.flatten_nil, List.append_nil]
  unfold TokenVisualizer.decodeOne
  rw [show tokenizer.reverseVocabulary = reverseVocabulary from rfl,
    reverseVocabulary_eq, show tokenizer.asciiOffset = (2000 : Int) from rfl]
  split
  · rfl
  · split <;> rfl

theorem length_dropWhile_le_self {α : Type} (p : α → Bool) :
    ∀ l : List α, (l.dropWhile p).length ≤ l.length := by
  intro l
  induction l with
  | nil => simp
  | cons c rest ih =>
      by_cases h : p c
      · rw [List.dropWhile_cons_of_pos h]
        exact Nat.le_trans ih (Nat.le_succ _)
      · rw [List.dropWhile_cons_of_neg h]

theorem tokGo_fold (text : JSString) :
    ∀ (done : List JSString) (cur : JSString),
    (text.foldl tokenizeStep (done, cur)).1
      ++ (if (text.foldl tokenizeStep (done, cur)).2.isEmpty then []
          else [(text.foldl tokenizeStep (done, cur)).2])
    = done ++ tokGo text cur := by
  induction text with
  | nil =>
      intro done cur
      simp [tokGo]
  | cons c rest ih =>
      intro done cur
      rw [List.foldl_cons]
      by_cases h1 : isJsWhitespace c
      · by_cases h2 : c = 32
        · subst h2
          rw [show tokenizeStep (done, cur) 32
              = (done ++ (if cur.isEmpty then [] else [cur]), []) from by
            simp [tokenizeStep, h1]]
          rw [ih]
          simp [tokGo, h1]
        · rw [show tokenizeStep (done, cur) c
              = (done ++ (if cur.isEmpty then [] else [cur]) ++ [[c]], [])
              from by simp [tokenizeStep, h1, h2]]
          rw [ih]
          simp [tokGo, h1, h2]
      · by_cases h2 : isPunctChar c
        · rw [show tokenizeStep (done, cur) c
              = (done ++ (if cur.isEmpty then [] else [cur]) ++ [[c]], [])
              from by simp [tokenizeStep, h1, h2]]
          rw [ih]
          simp [tokGo, h1, h2]
        · rw [show tokenizeStep (done, cur) c = (done, cur ++ [c]) from by
            simp [tokenizeStep, h1, h2]]
          rw [ih]
          simp [tokGo, h1, h2]

theorem tokenizeWords_eq_tokGo (text : JSString) :
    tokenizeWords text = tokGo text [] := by
  have h := tokGo_fold text [] []
  simpa [tokenizeWords] using h

theorem tokGo_spec : ∀ (n : Nat) (text : JSString), text.length ≤ n →
    tokGo text [] = splitUnitsSpec text
    ∧ ∀ cur : JSString, cur ≠ [] → (∀ c ∈ cur, isRegularChar c = true) →
        tokGo text cur
          = (cur ++ text.takeWhile isRegularChar)
            :: splitUnitsSpec (text.dropWhile isRegularChar) := by
  intro n
  induction n with
  | zero =>
      intro text hlen
      have htext : text = [] := List.length_eq_zero.mp (Nat.le_zero.mp hlen)
      subst htext
      refine ⟨by simp [tokGo, splitUnitsSpec], ?_⟩
      intro cur hne hreg
      simp [tokGo, splitUnitsSpec, hne]
  | succ m ih =>
      intro text hlen
      cases text with
      | nil =>
          refine ⟨by simp [tokGo, splitUnitsSpec], ?_⟩
          intro cur hne hreg
          simp [tokGo, splitUnitsSpec, hne]
      | cons c rest =>
          have hrest : rest.length ≤ m := by
            simp only [List.length_cons] at hlen
            omega
          by_cases h1 : isJsWhitespace c
          · have hmain := (ih rest hrest).1
            have hcreg : isRegularChar c = false := by
              simp [isRegularChar, h1]
            refine ⟨?_, ?_⟩
            · rw [show tokGo (c :: rest) []
                  = (if c ≠ 32 then [[c]] else []) ++ tokGo rest [] from by
                simp [tokGo, h1]]
              rw [hmain]
              rw [show splitUnitsSpec (c :: rest)
                  = (if c = 32 then [] else [[c]]) ++ splitUnitsSpec rest from by
                simp only [splitUnitsSpec]
                simp [h1]]
              by_cases h2 : c = 32 <;> simp [h2]
            · intro cur hne hreg
              rw [show tokGo (c :: rest) cur
                  = [cur] ++ (if c ≠ 32 then [[c]] else []) ++ tokGo rest []
                  from by simp [tokGo, h1, hne]]
              rw [hmain]
              rw [List.takeWhile_cons_of_neg (by simp [hcreg]),
                List.dropWhile_cons_of_neg (by simp [hcreg])]
              rw [show splitUnitsSpec (c :: rest)
                  = (if c = 32 then [] else [[c]]) ++ splitUnitsSpec rest from by
                simp only [splitUnitsSpec]
                simp [h1]]
              by_cases h2 : c = 32 <;> simp [h2]
          · by_cases h2 : isPunctChar c
            · have hmain := (ih rest hrest).1
              have hcreg : isRegularChar c = false := by
                simp [isRegularChar, h2]
              refine ⟨?_, ?_⟩
              · rw [show tokGo (c :: rest) [] = [[c]] ++ tokGo rest [] from by
                  simp [tokGo, h1, h2]]
                rw [hmain]
                rw [show splitUnitsSpec (c :: rest) = [c] :: splitUnitsSpec rest
                    from by
                  simp only [splitUnitsSpec]
                  simp [h1, h2]]
                simp
              · intro cur hne hreg
                rw [show tokGo (c :: rest) cur = [cur] ++ [[c]] ++ tokGo rest []
                    from by simp [tokGo, h1, h2, hne]]
                rw [hmain]
                rw [List.takeWhile_cons_of_neg (by simp [hcreg]),
                  List.dropWhile_cons_of_neg (by simp [hcreg])]
                rw [show splitUnitsSpec (c :: rest) = [c] :: splitUnitsSpec rest
                    from by
                  simp only [splitUnitsSpec]
                  simp [h1, h2]]
                simp
            · have hcreg : isRegularChar c = true := by
                simp [isRegularChar, h1, h2]
              have hsub := (ih rest hrest).2
              refine ⟨?_, ?_⟩
              · rw [show tokGo (c :: rest) [] = tokGo rest [c] from by
                  simp [tokGo, h1, h2]]
                rw [hsub [c] (by simp) (by simpa using hcreg)]
                rw [show splitUnitsSpec (c :: rest)
                    = ((c :: rest).takeWhile isRegularChar)
                      :: splitUnitsSpec ((c :: rest).dropWhile isRegularChar)
                    from by
                  simp only [splitUnitsSpec]
                  simp [h1, h2]]
                rw [List.takeWhile_cons_of_pos hcreg,
                  List.dropWhile_cons_of_pos hcreg]
                simp
              · intro cur hne hreg
                rw [show tokGo (c :: rest) cur = tokGo rest (cur ++ [c]) from by
                  simp [tokGo, h1, h2]]
                rw [hsub (cur ++ [c]) (by simp) (by
                  intro x hx
                  rcases List.mem_append.mp hx with hx | hx
                  · exact hreg x hx
                  · simp at hx
                    subst hx
                    exact hcreg)]
                rw [List.takeWhile_cons_of_pos hcreg,
                  List.dropWhile_cons_of_pos hcreg]
                simp

theorem tokenizeWords_eq_spec (text : JSString) :
    tokenizeWords text = splitUnitsSpec text := by
  rw [tokenizeWords_eq_tokGo]
  exact (tokGo_spec text.length text (Nat.le_refl _)).1

theorem splitUnitsSpec_sound : ∀ (n : Nat) (text : JSString),
    text.length ≤ n →
    ((splitUnitsSpec text).map List.length).sum ≤ text.length
    ∧ ∀ u ∈ splitUnitsSpec text, u ≠ [] := by
  intro n
  induction n with
  | zero =>
      intro text hlen
      have htext : text = [] := List.length_eq_zero.mp (Nat.le_zero.mp hlen)
      subst htext
      simp [splitUnitsSpec]
  | succ m ih =>
      intro text hlen
      cases text with
      | nil => simp [splitUnitsSpec]
      | cons c rest =>
          have hrest : rest.length ≤ m := by
            simp only [List.length_cons] at hlen
            omega
          by_cases h1 : isJsWhitespace c
          · have hm := ih rest hrest
            rw [show splitUnitsSpec (c :: rest)
                = (if c = 32 then [] else [[c]]) ++ splitUnitsSpec rest from by
              simp only [splitUnitsSpec]
              simp [h1]]
            constructor
            · by_cases h2 : c = 32
              · simp [h2]
                exact Nat.le_trans hm.1 (Nat.le_succ _)
              · simp [h2]
                have := hm.1
                omega
            · intro u hu
              rcases List.mem_append.mp hu with hu | hu
              · by_cases h2 : c = 32
                · simp [h2] at hu
                · simp [h2] at hu
                  subst hu
                  simp
              · exact hm.2 u hu
          · by_cases h2 : isPunctChar c
            · have hm := ih rest hrest
              rw [show splitUnitsSpec (c :: rest) = [c] :: splitUnitsSpec rest
                  from by
                simp only [splitUnitsSpec]
                simp [h1, h2]]
              constructor
              · simp
                have := hm.1
                omega
              · intro u hu
                rcases List.mem_cons.mp hu with hu | hu
                · subst hu; simp
                · exact hm.2 u hu
            · have hcreg : isRegularChar c = true := by
                simp [isRegularChar, h1, h2]
              rw [show splitUnitsSpec (c :: rest)
                  = ((c :: rest).takeWhile isRegularChar)
                    :: splitUnitsSpec ((c :: rest).dropWhile isRegularChar)
                  from by
                simp only [splitUnitsSpec]
                simp [h1, h2]]
              rw [List.takeWhile_cons_of_pos hcreg,
                List.dropWhile_cons_of_pos hcreg]
              have hm := ih (rest.dropWhile isRegularChar)
                (Nat.le_trans (length_dropWhile_le_self _ rest) hrest)
              have htd : (rest.takeWhile isRegularChar).length
                  + (rest.dropWhile isRegularChar).length = rest.length := by
                rw [← List.length_append, List.takeWhile_append_dropWhile]
              constructor
              · simp
                have := hm.1
                omega
              · intro u hu
                rcases List.mem_cons.mp hu with hu | hu
                · subst hu; simp
                · exact hm.2 u hu

theorem encodeOne_length_le (self : TokenVisualizer) (w : JSString)
    (h : w ≠ []) : ((self.encodeOne 0 w).1).length ≤ w.length := by
  unfold TokenVisualizer.encodeOne
  split
  · have hpos : 0 < w.length := List.length_pos.mpr h
    simp
    omega
  · show (self.encodeToAscii w).length ≤ w.length
    unfold TokenVisualizer.encodeToAscii
    rw [List.length_map]

theorem encode_tokens_length_le (text : JSString) :
    (encodeText text).tokens.length ≤ text.length := by
  cases text with
  | nil => simp [encodeText, TokenVisualizer.encodeTextM]
  | cons c0 rest0 =>
      unfold encodeText
      rw [encodeTextM_eq tokenizer (c0 :: rest0) (by simp)]
      show (((tokenizeWords (c0 :: rest0)).enum.map
        (fun p => (tokenizer.encodeOne p.1 p.2).1)).flatten).length ≤ _
      rw [encode_tokens_flat, List.length_flatten, List.map_map]
      have hspec := splitUnitsSpec_sound (c0 :: rest0).length (c0 :: rest0)
        (Nat.le_refl _)
      rw [tokenizeWords_eq_spec]
      calc ((splitUnitsSpec (c0 :: rest0)).map
              (List.length ∘ fun w => (tokenizer.encodeOne 0 w).1)).sum
          ≤ ((splitUnitsSpec (c0 :: rest0)).map List.length).sum := by
            apply List.sum_le_sum
            intro u hu
            exact encodeOne_length_le tokenizer u (hspec.2 u hu)
        _ ≤ (c0 :: rest0).length := hspec.1

theorem tokenizeWords_single (c : Nat) (h : c ≠ 32) :
    tokenizeWords [c] = [[c]] := by
  by_cases h1 : isJsWhitespace c
  · simp [tokenizeWords, List.foldl_cons, List.foldl_nil, tokenizeStep, h1, h]
  · by_cases h2 : isPunctChar c <;>
      simp [tokenizeWords, List.foldl_cons, List.foldl_nil, tokenizeStep,
        h1, h2]

theorem encodeOne_congr (s t : TokenVisualizer)
    (hv : s.vocabulary = t.vocabulary) (ha : s.asciiOffset = t.asciiOffset) :
    s.encodeOne = t.encodeOne := by
  funext i w
  unfold TokenVisualizer.encodeOne TokenVisualizer.encodeToAscii
  rw [hv, ha]

theorem decodeOne_congr (s t : TokenVisualizer)
    (hr : s.reverseVocabulary = t.reverseVocabulary)
    (ha : s.asciiOffset = t.asciiOffset) :
    s.decodeOne = t.decodeOne := by
  funext i tk
  unfold TokenVisualizer.decodeOne
  rw [hr, ha]

theorem encodeTextM_fst_congr (s t : TokenVisualizer)
    (hv : s.vocabulary = t.vocabulary) (ha : s.asciiOffset = t.asciiOffset)
    (text : JSString) : (s.encodeTextM text).1 = (t.encodeTextM text).1 := by
  by_cases h : text = []
  · subst h; rfl
  · rw [encodeTextM_eq s text h, encodeTextM_eq t text h,
      encodeOne_congr s t hv ha]

theorem decodeTokensM_fst_congr (s t : TokenVisualizer)
    (hr : s.reverseVocabulary = t.reverseVocabulary)
    (ha : s.asciiOffset = t.asciiOffset) (tokens : List Int) :
    (s.decodeTokensM tokens).1 = (t.decodeTokensM tokens).1 := by
  by_cases h : tokens = []
  · subst h; rfl
  · rw [decodeTokensM_eq s tokens h, decodeTokensM_eq t tokens h,
      decodeOne_congr s t hr ha]

theorem statsM_fst_congr (s t : TokenVisualizer)
    (hv : s.vocabulary = t.vocabulary) (ha : s.asciiOffset = t.asciiOffset)
    (text : JSString) :
    (s.getEncodingStatsM text).1 = (t.getEncodingStatsM text).1 := by
  have h := encodeTextM_fst_congr s t hv ha text
  simp only [TokenVisualizer.getEncodingStatsM]
  rw [h]

theorem getVocabulary_congr (s t : TokenVisualizer)
    (hv : s.vocabulary = t.vocabulary) (ha : s.asciiOffset = t.asciiOffset)
    (st : JSString) (b : Bool) :
    s.getVocabulary st b = t.getVocabulary st b := by
  unfold TokenVisualizer.getVocabulary
  rw [hv, ha]

theorem runOp_preserves (s : TokenVisualizer) (op : Op) :
    (runOp s op).vocabulary = s.vocabulary
    ∧ (runOp s op).reverseVocabulary = s.reverseVocabulary
    ∧ (runOp s op).asciiOffset = s.asciiOffset := by
  cases op with
  | enc t =>
      by_cases h : t = []
      · subst h
        simp [runOp, TokenVisualizer.encodeTextM]
      · simp [runOp, encodeTextM_eq s t h]
  | dec ts =>
      by_cases h : ts = []
      · subst h
        simp [runOp, TokenVisualizer.decodeTokensM]
      · simp [runOp, decodeTokensM_eq s ts h]
  | stats t =>
      by_cases h : t = []
      · subst h
        simp [runOp, TokenVisualizer.getEncodingStatsM,
          TokenVisualizer.encodeTextM]
      · simp [runOp, TokenVisualizer.getEncodingStatsM, encodeTextM_eq s t h]
  | vocabList st b => exact ⟨rfl, rfl, rfl⟩

theorem foldl_runOp_preserves (ops : List Op) : ∀ s : TokenVisualizer,
    (ops.foldl runOp s).vocabulary = s.vocabulary
    ∧ (ops.foldl runOp s).reverseVocabulary = s.reverseVocabulary
    ∧ (ops.foldl runOp s).asciiOffset = s.asciiOffset := by
  induction ops with
  | nil => intro s; exact ⟨rfl, rfl, rfl⟩
  | cons op rest ih =>
      intro s
      have h1 := runOp_preserves s op
      have h2 := ih (runOp s op)
      exact ⟨h2.1.trans h1.1, h2.2.1.trans h1.2.1, h2.2.2.trans h1.2.2⟩

/-! ## Claims -/

/-- C1, counterexample: on the empty string, `encodeText` takes the falsy
early return and yields an object with no `tokenCount` field at all, so
the result does not have a `tokenCount` equal to the length of its token
sequence. -/
theorem claim_C1_counterexample : (encodeText (js "")).tokenCount = none :=
  rfl

/-- C1, amended: for every NON-EMPTY input text, the result of
`encodeText` has a `tokenCount` field equal to the length of its `tokens`
sequence (the empty string instead hits the early return, whose result
object carries no `tokenCount` field). -/
theorem claim_C1 (text : JSString) (h : text ≠ []) :
    (encodeText text).tokenCount = some (encodeText text).tokens.length := by
  cases text with
  | nil => exact absurd rfl h
  | cons c rest => rfl

/-- C1, witness for the amended theorem at the input "hi". -/
theorem claim_C1_witness :
    (encodeText (js "hi")).tokenCount
      = some (encodeText (js "hi")).tokens.length :=
  claim_C1 (js "hi") (by decide)

/-- C10: for every token id ≥ the ASCII offset 2000 (no such id is a
vocabulary id, as all vocabulary ids are < 208), `decodeTokens` appends
the character whose code is `(id − 2000)` reduced modulo 2^16 — large ids
silently wrap instead of being rejected — and records an "ASCII decode"
step; arbitrarily large integers are accepted without error. -/
theorem claim_C10 (t : Int) (h : asciiOffset ≤ t) :
    (decodeTokens [t]).text = [((t - 2000) % 65536).toNat]
    ∧ (decodeTokens [t]).steps
      = [{ step := 1, input := t,
           process := js "Token " ++ jsOfInt t ++ js " decoded from ASCII",
           output := .str [fromCharCode (t - asciiOffset)] }] := by
  have h208 : mapHas reverseVocabulary t = false :=
    mapHas_reverseVocabulary_eq_false t
      (by unfold asciiOffset at h; omega)
  have hone : ∀ i : Nat, tokenizer.decodeOne i t
      = ([fromCharCode (t - asciiOffset)],
         { step := i + 1, input := t,
           process := js "Token " ++ jsOfInt t ++ js " decoded from ASCII",
           output := .str [fromCharCode (t - asciiOffset)] }) := by
    intro i
    unfold TokenVisualizer.decodeOne
    rw [show tokenizer.reverseVocabulary = reverseVocabulary from rfl, h208,
      show tokenizer.asciiOffset = asciiOffset from rfl]
    rw [if_neg (by simp : ¬ (false = true)), if_pos h]
  have hd := decodeTokensM_eq tokenizer [t] (by simp)
  unfold decodeTokens
  rw [hd]
  refine ⟨?_, ?_⟩
  · simp [List.enum_cons, hone]
    rfl
  · simp [List.enum_cons, hone]

/-- C10, witness at the large id 70000 (wraps: 68000 mod 65536 = 2464). -/
theorem claim_C10_witness :
    (decodeTokens [70000]).text = [(((70000 : Int) - 2000) % 65536).toNat]
    ∧ (decodeTokens [70000]).steps
      = [{ step := 1, input := 70000,
           process := js "Token " ++ jsOfInt 70000 ++ js " decoded from ASCII",
           output := .str [fromCharCode ((70000 : Int) - asciiOffset)] }] :=
  claim_C10 70000 (by decide)

/-- C2: for every token sequence containing an id that is neither a
recognized vocabulary id nor ≥ the ASCII offset 2000, `decodeTokens` does
not fail: it appends the unknown-marker text `<UNK>` for that id, records
a "not found, using <UNK>" trace step at that position, and continues
decoding the remaining ids (the decoded text is the concatenation of the
per-id decodings of the ids before, the marker, and the ids after). -/
theorem claim_C2 (pre post : List Int) (bad : Int)
    (h1 : mapHas reverseVocabulary bad = false) (h2 : bad < asciiOffset) :
    (decodeTokens (pre ++ bad :: post)).text
      = ((pre.map (fun t => (tokenizer.decodeOne 0 t).1)).flatten
          ++ js "<UNK>")
        ++ (post.map (fun t => (tokenizer.decodeOne 0 t).1)).flatten
    ∧ (decodeTokens (pre ++ bad :: post)).steps.get? pre.length
      = some { step := pre.length + 1, input := bad,
               process := js "Token " ++ jsOfInt bad ++
                 js " not found, using <UNK>",
               output := .str (js "<UNK>") }
    ∧ (decodeTokens (pre ++ bad :: post)).steps.length
      = pre.length + 1 + post.length := by
  have hne : pre ++ bad :: post ≠ [] := by simp
  have hbad : ∀ i : Nat, tokenizer.decodeOne i bad
      = (js "<UNK>",
         { step := i + 1, input := bad,
           process := js "Token " ++ jsOfInt bad ++
             js " not found, using <UNK>",
           output := .str (js "<UNK>") }) := by
    intro i
    unfold TokenVisualizer.decodeOne
    rw [show tokenizer.reverseVocabulary = reverseVocabulary from rfl, h1,
      show tokenizer.asciiOffset = asciiOffset from rfl]
    rw [if_neg (by simp : ¬ (false = true)), if_neg (not_le.mpr h2)]
  unfold decodeTokens
  rw [decodeTokensM_eq tokenizer _ hne]
  refine ⟨?_, ?_, ?_⟩
  · show ((pre ++ bad :: post).enum.map
        (fun p => (tokenizer.decodeOne p.1 p.2).1)).flatten = _
    rw [decode_text_flat]
    simp [hbad]
  · show ((pre ++ bad :: post).enum.map
        (fun p => (tokenizer.decodeOne p.1 p.2).2)).get? pre.length = _
    rw [List.get?_eq_getElem?, List.getElem?_map, List.getElem?_enum,
      List.getElem?_append_right (Nat.le_refl pre.length), Nat.sub_self]
    simp [hbad]
  · simp
    omega

/-- C2, witness: decoding `[2072, 999, 0]`, where 999 is below the offset
and not a vocabulary id, degrades gracefully at position 1. -/
theorem claim_C2_witness :
    (decodeTokens ([2072] ++ 999 :: [0])).text
      = ((([2072] : List Int).map
            (fun t => (tokenizer.decodeOne 0 t).1)).flatten
          ++ js "<UNK>")
        ++ (([0] : List Int).map
            (fun t => (tokenizer.decodeOne 0 t).1)).flatten
    ∧ (decodeTokens ([2072] ++ 999 :: [0])).steps.get?
        ([2072] : List Int).length
      = some { step := ([2072] : List Int).length + 1, input := 999,
               process := js "Token " ++ jsOfInt 999 ++
                 js " not found, using <UNK>",
               output := .str (js "<UNK>") }
    ∧ (decodeTokens ([2072] ++ 999 :: [0])).steps.length
      = ([2072] : List Int).length + 1 + ([0] : List Int).length :=
  claim_C2 [2072] [0] 999 (by decide) (by decide)

/-- C3: for every unit `u` in the forward vocabulary map (exactly the
units on which `idOf` succeeds, with the id the map assigns), decoding
the one-element sequence `[idOf(u)]` yields exactly the text `u`. -/
theorem claim_C3 :
    vocabulary.all
      (fun p => decide (mapGet vocabulary p.1 = some p.2)) = true
    ∧ vocabulary.all
      (fun p => decide ((decodeTokens [p.2]).text = p.1)) = true := by
  constructor
  · simp only [vocabulary_eq]
    decide
  · rw [show (fun p : JSString × Int =>
        decide ((decodeTokens [p.2]).text = p.1))
      = (fun p : JSString × Int =>
        decide ((if mapHas revLit p.2 then (mapGet revLit p.2).getD []
           else if (2000 : Int) ≤ p.2 then [fromCharCode (p.2 - 2000)]
           else js "<UNK>") = p.1)) from
      funext fun p => by rw [decode_single_text]]
    simp only [vocabulary_eq]
    decide

/-- C5: after initialization, ids are sequential from 0 with no gaps (the
key sequence of the inverse map is exactly `0..N-1` for the N = 208 seed
entries, each mapping to its seed unit); for every unit in the forward
map the inverse map at its id returns that unit; for every seed position
the forward map holds the LAST-assigned id of that unit (so duplicated
seed units lose their earlier ids from the forward map — it has fewer
entries than there are seeds — and some inverse-map ids are orphaned:
their unit no longer maps back to them). -/
theorem claim_C5 :
    reverseVocabulary.map Prod.fst
        = (List.range seedUnits.length).map Int.ofNat
    ∧ (List.range seedUnits.length).all (fun i =>
        mapGet reverseVocabulary (Int.ofNat i) == seedUnits.get? i) = true
    ∧ vocabulary.all (fun p =>
        mapGet reverseVocabulary p.2 == some p.1) = true
    ∧ seedUnits.enum.all (fun p =>
        mapGet vocabulary p.2
          == some (Int.ofNat
              (seedUnits.length - 1 - seedUnits.reverse.indexOf p.2))) = true
    ∧ vocabulary.length < seedUnits.length
    ∧ (List.range seedUnits.length).any (fun i =>
        (mapGet reverseVocabulary (Int.ofNat i)).any
          (fun u => mapGet vocabulary u != some (Int.ofNat i))) = true := by
  refine ⟨?_, ?_, ?_, ?_, ?_, ?_⟩ <;>
    simp only [vocabulary_eq, reverseVocabulary_eq, seedUnits_eq] <;> decide

/-- C8: listing the vocabulary with an empty search term and
`includeAscii = true` returns exactly (number of entries of the
vocabulary table) + 95 entries — a permutation of one entry per table
pair plus one synthesized entry per printable code 32–126 with id
`code + 2000` — sorted in ascending order of id. -/
theorem claim_C8 :
    (tokenizer.getVocabulary (js "") true).length
        = tokenizer.vocabulary.length + 95
    ∧ List.Pairwise (fun a b => a.token < b.token)
        (tokenizer.getVocabulary (js "") true)
    ∧ List.Perm (tokenizer.getVocabulary (js "") true)
        ((vocabulary.map
            (fun p => VocabEntry.mk p.1 p.2 (js "vocabulary")))
          ++ (List.range 95).map (fun j =>
              VocabEntry.mk [32 + j] ((32 + j : Int) + 2000) (js "ascii"))) := by
  refine ⟨by decide, by decide, by decide⟩

/-- C4: for every single UTF-16 code unit `c` whose unit `[c]` is not a
vocabulary entry after case folding, encoding the one-character text and
decoding the resulting ids reproduces exactly `[c]` (the character takes
the ASCII-fallback id `c + 2000`, which decodes back to code `c`). -/
theorem claim_C4 (c : Nat) (hlt : c < 65536)
    (h : mapHas vocabulary (jsToLowerCase [c]) = false) :
    (decodeTokens (encodeText [c]).tokens).text = [c] := by
  have h32 : c ≠ 32 := by
    intro hc
    subst hc
    rw [vocabulary_eq] at h
    exact absurd h (by decide)
  have henc : (encodeText [c]).tokens = [(c : Int) + 2000] := by
    unfold encodeText
    rw [encodeTextM_eq tokenizer [c] (by simp)]
    show (((tokenizeWords [c]).enum.map
      (fun p => (tokenizer.encodeOne p.1 p.2).1)).flatten) = _
    rw [tokenizeWords_single c h32]
    simp only [List.enum_cons, List.enumFrom_nil, List.map_cons, List.map_nil,
      List.flatten_cons, List.flatten_nil, List.append_nil]
    unfold TokenVisualizer.encodeOne
    rw [show tokenizer.vocabulary = vocabulary from rfl, h]
    rw [if_neg (by simp : ¬ (false = true))]
    rfl
  rw [henc]
  rw [decode_single_text]
  rw [← reverseVocabulary_eq]
  rw [mapHas_reverseVocabulary_eq_false _ (by omega)]
  rw [if_neg (by simp : ¬ (false = true)),
    if_pos (by omega : (2000 : Int) ≤ (c : Int) + 2000)]
  show [fromCharCode ((c : Int) + 2000 - 2000)] = [c]
  rw [show (c : Int) + 2000 - 2000 = (c : Int) by ring]
  unfold fromCharCode
  rw [Int.emod_eq_of_lt (by omega) (by omega)]
  simp

/-- C4, witness at the character "x" (code 120). -/
theorem claim_C4_witness :
    (120 : Nat) < 65536
    ∧ mapHas vocabulary (jsToLowerCase [120]) = false
    ∧ (decodeTokens (encodeText [120]).tokens).text = [120] :=
  ⟨by decide, by decide, claim_C4 120 (by decide) (by decide)⟩

/-- C7: unit splitting scans left to right and produces exactly: maximal
runs of regular (non-whitespace, non-punctuation) characters as whole
units; each punctuation character of the fixed set and each non-space
whitespace character as its own single-character unit; no unit for the
plain space, which only terminates the pending run, flushed at end of
input — stated as: the `tokenizeWords` of the source coincides with the
spec-side splitter `splitUnitsSpec`. -/
theorem claim_C7 (text : JSString) :
    tokenizeWords text = splitUnitsSpec text :=
  tokenizeWords_eq_spec text

/-- C9: `encodeText`, `decodeTokens`, `getEncodingStats` and
`getVocabulary` are pure functions of their argument plus the static
vocabulary: after ANY sequence of prior calls on the instance (which may
only rewrite the per-call trace arrays, never the vocabulary maps or the
offset), each call returns exactly the result it returns on the freshly
constructed instance.  Returned results are values of the embedding, so
no later call can mutate a previously returned result. -/
theorem claim_C9 (ops : List Op) (text : JSString) (tokens : List Int)
    (searchTerm : JSString) (includeAscii : Bool) :
    ((ops.foldl runOp tokenizer).encodeTextM text).1
        = (tokenizer.encodeTextM text).1
    ∧ ((ops.foldl runOp tokenizer).decodeTokensM tokens).1
        = (tokenizer.decodeTokensM tokens).1
    ∧ ((ops.foldl runOp tokenizer).getEncodingStatsM text).1
        = (tokenizer.getEncodingStatsM text).1
    ∧ (ops.foldl runOp tokenizer).getVocabulary searchTerm includeAscii
        = tokenizer.getVocabulary searchTerm includeAscii := by
  have h := foldl_runOp_preserves ops tokenizer
  exact ⟨encodeTextM_fst_congr _ _ h.1 h.2.2 text,
         decodeTokensM_fst_congr _ _ h.2.1 h.2.2 tokens,
         statsM_fst_congr _ _ h.1 h.2.2 text,
         getVocabulary_congr _ _ h.1 h.2.2 searchTerm includeAscii⟩
